import Mathlib

/-!
Verification of the volatility-arbitrage decision engine and its custom
indicators (QuantConnect strategy: `AssetStrategy.py`, `Indicators.py`).

Prices, band values and portfolio quantities are modelled as rationals.
The framework-provided Bollinger-band and RSI indicators (whose numeric
outputs involve square roots and framework smoothing) enter the decision
engine only through their snapshot values and readiness flags, so the
engine bundle carries those as fields; the trend filter's moving average
and the historical-volatility rolling window, whose logic lives in this
repository, are embedded concretely.  The natural logarithm and the
standard deviation used by `HistoricalVolatility` are passed as function
parameters so that every definition stays executable; theorems assume
only the properties of the real functions that the proofs need
(e.g. `log 1 = 0`).
-/

/-- A price bar: end time and close price, the only fields the
repository's indicator `Update` methods read. -/
structure Bar where
  endTime : ℕ
  close : ℚ
deriving DecidableEq, Repr

/-- A data slice handed to `Update`: an association of symbol to an
optional bar, mirroring the Python mapping in which a key may be absent
or may be present with value `None`. -/
def Slice := List (ℕ × Option Bar)

/-- Python `symbol in data` + `data[symbol]`: the entry for `s`, if the
slice contains `s` at all (`none` = key absent; `some none` = key
present but its value is `None`). -/
def Slice.entry (d : Slice) (s : ℕ) : Option (Option Bar) :=
  (d.find? (fun e => e.fst == s)).map Prod.snd

/-- The guard `self.symbol in data and data[self.symbol] is not None`
followed by the read `data[self.symbol]`: the bar for `s` when both
conditions hold. -/
def Slice.bar (d : Slice) (s : ℕ) : Option Bar :=
  match d.entry s with
  | some (some b) => some b
  | _ => none

/-- QuantConnect `RollingWindow[float](size)`: index 0 is the most
recent element; `Add` inserts at the front and evicts the oldest once
`size` elements are held. -/
structure RollingWindow where
  size : ℕ
  data : List ℚ
deriving DecidableEq, Repr

def RollingWindow.Add (w : RollingWindow) (x : ℚ) : RollingWindow :=
  { w with data := (x :: w.data).take w.size }

def RollingWindow.Count (w : RollingWindow) : ℕ :=
  w.data.length

def RollingWindow.IsReady (w : RollingWindow) : Bool :=
  w.Count == w.size

/-- The framework SMA consumed by `TrendFilter`: it accumulates the
`(EndTime, Close)` pairs fed to it, is ready once `period` samples have
arrived, and its current value is the mean of the last `period`
closes. -/
structure SMAState where
  period : ℕ
  samples : List (ℕ × ℚ)
deriving DecidableEq, Repr

def SMAState.Update (s : SMAState) (t : ℕ) (c : ℚ) : SMAState :=
  { s with samples := s.samples ++ [(t, c)] }

def SMAState.IsReady (s : SMAState) : Bool :=
  s.period ≤ s.samples.length

def SMAState.CurrentValue (s : SMAState) : ℚ :=
  ((s.samples.reverse.take s.period).map Prod.snd).sum / (s.period : ℚ)

/-- `TrendFilter` (Indicators.py): a symbol plus a simple moving
average; trend direction compares the current price to the average. -/
structure TrendFilter where
  symbol : ℕ
  sma : SMAState
deriving DecidableEq, Repr

def TrendFilter.Update (t : TrendFilter) (d : Slice) : TrendFilter :=
  match d.bar t.symbol with
  | some b => { t with sma := t.sma.Update b.endTime b.close }
  | none => t

/-- `IsUptrend`: ready and current price strictly above the average. -/
def TrendFilter.IsUptrend (t : TrendFilter) (price : ℚ) : Bool :=
  if t.sma.IsReady then decide (price > t.sma.CurrentValue) else false

/-- `IsDowntrend`: ready and current price strictly below the average. -/
def TrendFilter.IsDowntrend (t : TrendFilter) (price : ℚ) : Bool :=
  if t.sma.IsReady then decide (price < t.sma.CurrentValue) else false

/-- `CustomBollingerBands` (Indicators.py): its own state is the
framework band indicator, which is determined by the stream of
`(EndTime, Close)` pairs fed to it; `Update` conditionally appends one
pair. -/
structure CustomBollingerBands where
  symbol : ℕ
  bbands : List (ℕ × ℚ)
deriving DecidableEq, Repr

def CustomBollingerBands.Update (bb : CustomBollingerBands) (d : Slice) :
    CustomBollingerBands :=
  match d.bar bb.symbol with
  | some b => { bb with bbands := bb.bbands ++ [(b.endTime, b.close)] }
  | none => bb

/-- `RSIIndicator` (Indicators.py): likewise determined by the stream of
`(EndTime, Close)` pairs fed to the framework RSI. -/
structure RSIIndicator where
  symbol : ℕ
  rsi : List (ℕ × ℚ)
deriving DecidableEq, Repr

def RSIIndicator.Update (r : RSIIndicator) (d : Slice) : RSIIndicator :=
  match d.bar r.symbol with
  | some b => { r with rsi := r.rsi ++ [(b.endTime, b.close)] }
  | none => r

/-- `HistoricalVolatility` (Indicators.py): a rolling window named
`returns`. -/
structure HistoricalVolatility where
  symbol : ℕ
  returns : RollingWindow
deriving DecidableEq, Repr

/-- `HistoricalVolatility.Update`, verbatim from the source: when a bar
for the symbol is present, if the window is non-empty it sets
`previous_price` to `self.returns[0]` — the most recently stored
*return* — falling back to the current price when that entry is zero,
appends `log(price / previous_price)` when `previous_price > 0` and `0`
otherwise; an empty window gets `0`.  `log` abstracts `np.log`. -/
def HistoricalVolatility.Update (log : ℚ → ℚ) (hv : HistoricalVolatility)
    (d : Slice) : HistoricalVolatility :=
  match d.bar hv.symbol with
  | none => hv
  | some b =>
    let price := b.close
    if hv.returns.Count > 0 then
      let previous_price :=
        if hv.returns.data.headI ≠ 0 then hv.returns.data.headI else price
      let log_return :=
        if previous_price > 0 then log (price / previous_price) else 0
      { hv with returns := hv.returns.Add log_return }
    else
      { hv with returns := hv.returns.Add 0 }

/-- `GetVolatility`: the standard deviation of the stored returns once
the window is full, else `None`; `std` abstracts `np.std`. -/
def HistoricalVolatility.GetVolatility (std : List ℚ → ℚ)
    (hv : HistoricalVolatility) : Option ℚ :=
  if hv.returns.IsReady then some (std hv.returns.data) else none

/-- Modelled from the spec: the log-return of consecutive closes,
`log(current close / previous close)`, the value §4.4 says each update
appends; `log` abstracts the natural logarithm. -/
def specLogReturn (log : ℚ → ℚ) (previousClose currentClose : ℚ) : ℚ :=
  log (currentClose / previousClose)

/-- An order-placing call the strategy can make: `SetHoldings(symbol, f)`
or `Liquidate(symbol)`. -/
inductive TradeAction where
  | SetHoldings (target : ℚ)
  | Liquidate
deriving DecidableEq, Repr

/-- The spec's EnterLong action: `SetHoldings` at the (positive) long
size fraction. -/
def TradeAction.EnterLong (f : ℚ) : TradeAction := TradeAction.SetHoldings f

/-- The spec's EnterShort action: `SetHoldings` at the negated short
size fraction, as the source writes `SetHoldings(symbol, -short_trade_size)`. -/
def TradeAction.EnterShort (f : ℚ) : TradeAction := TradeAction.SetHoldings (-f)

def TradeAction.isEntry : TradeAction → Bool
  | TradeAction.SetHoldings _ => true
  | TradeAction.Liquidate => false

/-- The risk parameters fixed in `AssetArbitrageStrategy.__init__`. -/
structure StrategyParams where
  long_trade_size : ℚ
  short_trade_size : ℚ
  long_stop_loss : ℚ
  short_stop_loss : ℚ
  max_portfolio_exposure : ℚ
deriving DecidableEq, Repr

/-- The defaults from the constructor: 5% long size, 3% short size,
5% / 3% stop-losses, 80% maximum exposure. -/
def defaultParams : StrategyParams :=
  { long_trade_size := 5 / 100
    short_trade_size := 3 / 100
    long_stop_loss := 5 / 100
    short_stop_loss := 3 / 100
    max_portfolio_exposure := 80 / 100 }

/-- The account state `Execute` reads: current price (possibly `None`),
position quantity and average entry price for this symbol, the
per-holding `HoldingsValue` of every portfolio entry (signed), and the
total portfolio value. -/
structure AccountState where
  price : Option ℚ
  holdings : ℚ
  average_price : ℚ
  holdingsValues : List ℚ
  totalPortfolioValue : ℚ
deriving DecidableEq, Repr

/-- The exposure computed at line 55 of `AssetStrategy.py`:
`sum(holding.HoldingsValue for ...) / TotalPortfolioValue` — the signed
sum, no absolute value. -/
def portfolio_exposure (acc : AccountState) : ℚ :=
  acc.holdingsValues.sum / acc.totalPortfolioValue

/-- Modelled from the spec: the aggregate exposure ratio of §3,
`Σ|holding value| / total value`. -/
def specAbsoluteExposure (acc : AccountState) : ℚ :=
  (acc.holdingsValues.map (fun v => |v|)).sum / acc.totalPortfolioValue

/-- The indicator snapshot `Execute` reads: readiness flags, the three
band values and the RSI value (framework outputs), and the trend filter
embedded concretely. -/
structure IndicatorBundle where
  bands_HasSignal : Bool
  bands_LowerBand : ℚ
  bands_MiddleBand : ℚ
  bands_UpperBand : ℚ
  rsi_HasSignal : Bool
  rsi_Value : ℚ
  trend : TrendFilter
deriving DecidableEq, Repr

/-- Lines 60–84 of `AssetStrategy.py`, the part of `Execute` reached
once every guard has passed: the long/short entry `if`/`elif` followed
by the four independent stop-loss and exit `if`s; the result collects,
in program order, the order calls the method makes. -/
def decisionActions (p : StrategyParams) (ind : IndicatorBundle)
    (acc : AccountState) (price : ℚ) : List TradeAction :=
  (if acc.holdings = 0 ∧ price < ind.bands_LowerBand ∧
      ind.rsi_Value < 30 ∧ ind.trend.IsUptrend price = true then
    [TradeAction.SetHoldings p.long_trade_size]
  else if acc.holdings = 0 ∧ price > ind.bands_UpperBand ∧
      ind.rsi_Value > 70 ∧ ind.trend.IsDowntrend price = true then
    [TradeAction.SetHoldings (-p.short_trade_size)]
  else []) ++
  (if acc.holdings > 0 ∧
      price < acc.average_price * (1 - p.long_stop_loss) then
    [TradeAction.Liquidate]
  else []) ++
  (if acc.holdings < 0 ∧
      price > acc.average_price * (1 + p.short_stop_loss) then
    [TradeAction.Liquidate]
  else []) ++
  (if acc.holdings > 0 ∧ price ≥ ind.bands_MiddleBand then
    [TradeAction.Liquidate]
  else []) ++
  (if acc.holdings < 0 ∧ price ≤ ind.bands_MiddleBand then
    [TradeAction.Liquidate]
  else [])

/-- `AssetArbitrageStrategy.Execute`, translated clause by clause: the
readiness guard, the price-validity guard, the exposure early return,
then the entry/stop-loss/exit block `decisionActions`.  An early return
(the spec's NoOp) is the empty list. -/
def Execute (p : StrategyParams) (ind : IndicatorBundle) (acc : AccountState) :
    List TradeAction :=
  if ind.bands_HasSignal = false ∨ ind.rsi_HasSignal = false then []
  else
    match acc.price with
    | none => []
    | some price =>
      if price ≤ 0 then []
      else if portfolio_exposure acc > p.max_portfolio_exposure then []
      else decisionActions p ind acc price

/-! Concrete inputs used by witnesses and counterexamples. -/

/-- An indicator snapshot with both readiness flags set; band values
10/50/90, oscillator at 50, trend SMA holding one sample of 100. -/
def ind1 : IndicatorBundle :=
  { bands_HasSignal := true, bands_LowerBand := 10, bands_MiddleBand := 50,
    bands_UpperBand := 90, rsi_HasSignal := true, rsi_Value := 50,
    trend := ⟨1, ⟨1, [(0, 100)]⟩⟩ }

/-- A long position of 10 units entered at 100, current price 90, one
holding worth 85 out of a 100 total: exposure 0.85 and the long
stop-loss condition (90 < 95) both hold. -/
def acc1 : AccountState :=
  { price := some 90, holdings := 10, average_price := 100,
    holdingsValues := [85], totalPortfolioValue := 100 }

/-- Ready snapshot whose middle band is 90. -/
def ind2 : IndicatorBundle :=
  { bands_HasSignal := true, bands_LowerBand := 10, bands_MiddleBand := 90,
    bands_UpperBand := 200, rsi_HasSignal := true, rsi_Value := 50,
    trend := ⟨1, ⟨50, []⟩⟩ }

/-- A long position entered at 100 with current price 94: the stop-loss
condition (94 < 95) and the middle-band exit (94 ≥ 90) hold together;
exposure 0.5 is within the limit. -/
def acc2 : AccountState :=
  { price := some 94, holdings := 10, average_price := 100,
    holdingsValues := [50], totalPortfolioValue := 100 }

/-- Ready snapshot favouring a long entry at price 18: lower band 19,
oscillator 25, trend SMA at 17. -/
def ind3 : IndicatorBundle :=
  { bands_HasSignal := true, bands_LowerBand := 19, bands_MiddleBand := 17,
    bands_UpperBand := 21, rsi_HasSignal := true, rsi_Value := 25,
    trend := ⟨1, ⟨1, [(0, 17)]⟩⟩ }

/-- Flat in this instrument, but other holdings are worth 50 and −100 of
a 100 total: the signed sum gives exposure −0.5 while the sum of
absolute values gives 1.5. -/
def acc3 : AccountState :=
  { price := some 18, holdings := 0, average_price := 0,
    holdingsValues := [50, -100], totalPortfolioValue := 100 }

/-- All-long holdings worth 50 and 30 of a 100 total. -/
def acc3w : AccountState :=
  { price := none, holdings := 0, average_price := 0,
    holdingsValues := [50, 30], totalPortfolioValue := 100 }

/-- A fresh volatility estimator for symbol 1 with the default window
of 20. -/
def hv4 : HistoricalVolatility := ⟨1, ⟨20, []⟩⟩

/-- First bar for symbol 1: close 100. -/
def slice4a : Slice := [(1, some ⟨0, 100⟩)]

/-- Second bar for symbol 1: close 110. -/
def slice4b : Slice := [(1, some ⟨1, 110⟩)]

/-- A snapshot whose band indicator is not ready. -/
def ind5 : IndicatorBundle :=
  { bands_HasSignal := false, bands_LowerBand := 19, bands_MiddleBand := 20,
    bands_UpperBand := 21, rsi_HasSignal := true, rsi_Value := 25,
    trend := ⟨1, ⟨1, [(0, 17)]⟩⟩ }

/-- Account state paired with `ind5`: all entry-side numbers look fine. -/
def acc5 : AccountState :=
  { price := some 18, holdings := 0, average_price := 0,
    holdingsValues := [], totalPortfolioValue := 100 }

/-- The spec's long-entry scenario: lower band 19, oscillator 25, trend
SMA at 17 so that price 18 is an uptrend. -/
def ind6 : IndicatorBundle :=
  { bands_HasSignal := true, bands_LowerBand := 19, bands_MiddleBand := 20,
    bands_UpperBand := 21, rsi_HasSignal := true, rsi_Value := 25,
    trend := ⟨1, ⟨1, [(0, 17)]⟩⟩ }

/-- Flat position at price 18, no exposure. -/
def acc6 : AccountState :=
  { price := some 18, holdings := 0, average_price := 0,
    holdingsValues := [], totalPortfolioValue := 100 }

/-- Ready snapshot with middle band 90, used for the stop-loss
precedence scenario. -/
def ind8 : IndicatorBundle :=
  { bands_HasSignal := true, bands_LowerBand := 10, bands_MiddleBand := 90,
    bands_UpperBand := 200, rsi_HasSignal := true, rsi_Value := 50,
    trend := ⟨1, ⟨50, []⟩⟩ }

/-- Long position entered at 100, price 94: stop-loss holds and price is
also above the middle band. -/
def acc8 : AccountState :=
  { price := some 94, holdings := 10, average_price := 100,
    holdingsValues := [50], totalPortfolioValue := 100 }

/-- A trend filter whose one-sample SMA equals 5. -/
def t9 : TrendFilter := ⟨1, ⟨1, [(0, 5)]⟩⟩

/-- A slice carrying a bar only for symbol 2. -/
def d10 : Slice := [(2, some ⟨0, 5⟩)]

/-- Band, RSI, volatility and trend indicators all keyed to symbol 1. -/
def bb10 : CustomBollingerBands := ⟨1, [(0, 3)]⟩

/-- RSI indicator keyed to symbol 1 with one stored feed. -/
def r10 : RSIIndicator := ⟨1, [(0, 4)]⟩

/-- Volatility estimator keyed to symbol 1 with one stored return. -/
def hv10 : HistoricalVolatility := ⟨1, ⟨20, [0]⟩⟩

/-- Trend filter keyed to symbol 1 with one SMA sample. -/
def tf10 : TrendFilter := ⟨1, ⟨50, [(0, 6)]⟩⟩

/-! Theorems settling the claims. -/

/-- When the slice has no entry for `s`, or the entry is `None`, the
guarded bar read yields nothing. -/
theorem Slice.bar_eq_none_of_missing (d : Slice) (s : ℕ)
    (h : d.entry s = none ∨ d.entry s = some none) : d.bar s = none := by
  unfold Slice.bar
  rcases h with h | h <;> rw [h]

/-- Claim C9 (confirmed): for every trend-filter state and price, at
most one of `IsUptrend` and `IsDowntrend` is true, and both are false
when the SMA is not ready or the price equals the moving average. -/
theorem c9_trend_directions_exclusive (t : TrendFilter) (price : ℚ) :
    ¬(t.IsUptrend price = true ∧ t.IsDowntrend price = true) ∧
    ((t.sma.IsReady = false ∨ price = t.sma.CurrentValue) →
      t.IsUptrend price = false ∧ t.IsDowntrend price = false) := by
  unfold TrendFilter.IsUptrend TrendFilter.IsDowntrend
  by_cases hr : t.sma.IsReady = true
  · rw [if_pos hr, if_pos hr]
    simp only [decide_eq_true_eq, decide_eq_false_iff_not]
    refine ⟨fun h => lt_irrefl price (h.2.trans h.1), ?_⟩
    rintro (hf | heq)
    · rw [hr] at hf
      exact Bool.noConfusion hf
    · rw [heq]
      exact ⟨lt_irrefl _, lt_irrefl _⟩
  · rw [if_neg hr, if_neg hr]
    exact ⟨fun h => Bool.noConfusion h.1, fun _ => ⟨rfl, rfl⟩⟩

/-- Witness for C9 at a concrete filter whose SMA equals the price. -/
theorem c9_trend_directions_exclusive_witness :
    t9.IsUptrend 5 = false ∧ t9.IsDowntrend 5 = false :=
  (c9_trend_directions_exclusive t9 5).2
    (Or.inr (by norm_num [t9, SMAState.CurrentValue]))

/-- Claim C10 (confirmed): updating any of the four indicators with a
slice that has no entry for the indicator's symbol, or whose entry is
`None`, leaves the indicator's entire state unchanged. -/
theorem c10_update_missing_symbol_is_frame (d : Slice)
    (bb : CustomBollingerBands) (r : RSIIndicator) (hv : HistoricalVolatility)
    (tf : TrendFilter) (log : ℚ → ℚ)
    (hbb : d.entry bb.symbol = none ∨ d.entry bb.symbol = some none)
    (hr : d.entry r.symbol = none ∨ d.entry r.symbol = some none)
    (hhv : d.entry hv.symbol = none ∨ d.entry hv.symbol = some none)
    (htf : d.entry tf.symbol = none ∨ d.entry tf.symbol = some none) :
    bb.Update d = bb ∧ r.Update d = r ∧ hv.Update log d = hv ∧
      tf.Update d = tf := by
  refine ⟨?_, ?_, ?_, ?_⟩
  · unfold CustomBollingerBands.Update
    rw [Slice.bar_eq_none_of_missing d bb.symbol hbb]
  · unfold RSIIndicator.Update
    rw [Slice.bar_eq_none_of_missing d r.symbol hr]
  · unfold HistoricalVolatility.Update
    rw [Slice.bar_eq_none_of_missing d hv.symbol hhv]
  · unfold TrendFilter.Update
    rw [Slice.bar_eq_none_of_missing d tf.symbol htf]

/-- Witness for C10: a slice carrying only symbol 2 leaves all four
symbol-1 indicators untouched. -/
theorem c10_update_missing_symbol_is_frame_witness :
    bb10.Update d10 = bb10 ∧ r10.Update d10 = r10 ∧
      HistoricalVolatility.Update (fun x => x - 1) hv10 d10 = hv10 ∧
      tf10.Update d10 = tf10 :=
  c10_update_missing_symbol_is_frame d10 bb10 r10 hv10 tf10
    (fun x => x - 1) (Or.inl rfl) (Or.inl rfl) (Or.inl rfl) (Or.inl rfl)

/-- Claim C5 (confirmed): when either indicator lacks a signal, or the
price is undefined or non-positive, the engine emits nothing at all. -/
theorem c5_not_ready_or_bad_price_noop (p : StrategyParams)
    (ind : IndicatorBundle) (acc : AccountState)
    (h : ind.bands_HasSignal = false ∨ ind.rsi_HasSignal = false ∨
      acc.price = none ∨ ∃ pr, acc.price = some pr ∧ pr ≤ 0) :
    Execute p ind acc = [] := by
  unfold Execute
  rcases h with h | h | h | ⟨pr, hp, hle⟩
  · rw [if_pos (Or.inl h)]
  · rw [if_pos (Or.inr h)]
  · split
    · rfl
    · rw [h]
  · split
    · rfl
    · rw [hp]
      simp only [if_pos hle]

/-- Witness for C5: a not-ready band indicator yields an empty action
list. -/
theorem c5_not_ready_or_bad_price_noop_witness :
    Execute defaultParams ind5 acc5 = [] :=
  c5_not_ready_or_bad_price_noop defaultParams ind5 acc5 (Or.inl rfl)

/-- Counterexample to claim C1 as stated: with exposure 0.85 > 0.80 and
the long stop-loss condition holding (price 90 < 95), the engine emits
no Liquidate — risk-reducing actions are suppressed along with
entries. -/
theorem c1_counterexample_stop_loss_suppressed :
    portfolio_exposure acc1 > defaultParams.max_portfolio_exposure ∧
    ind1.bands_HasSignal = true ∧ ind1.rsi_HasSignal = true ∧
    acc1.price = some 90 ∧ acc1.holdings > 0 ∧
    (90 : ℚ) < acc1.average_price * (1 - defaultParams.long_stop_loss) ∧
    TradeAction.Liquidate ∉ Execute defaultParams ind1 acc1 := by
  refine ⟨?_, rfl, rfl, rfl, ?_, ?_, ?_⟩
  · norm_num [portfolio_exposure, acc1, defaultParams]
  · norm_num [acc1]
  · norm_num [acc1, defaultParams]
  · norm_num [Execute, portfolio_exposure, ind1, acc1, defaultParams]

/-- Claim C1 (amended): whenever the exposure ratio exceeds the maximum,
the evaluation emits no action at all — entries, stop-losses and exits
alike are suppressed by the early return. -/
theorem c1_exposure_gate_suppresses_everything (p : StrategyParams)
    (ind : IndicatorBundle) (acc : AccountState)
    (h : portfolio_exposure acc > p.max_portfolio_exposure) :
    Execute p ind acc = [] := by
  unfold Execute
  split
  · rfl
  · split
    · rfl
    · split
      · rfl
      · rfl

/-- Witness for amended C1 at the 0.85-exposure account. -/
theorem c1_exposure_gate_suppresses_everything_witness :
    Execute defaultParams ind1 acc1 = [] :=
  c1_exposure_gate_suppresses_everything defaultParams ind1 acc1
    (by norm_num [portfolio_exposure, acc1, defaultParams])

/-- Once the readiness, price and exposure guards pass, `Execute`
returns exactly the entry/stop-loss/exit block. -/
theorem Execute_eq_decisionActions (p : StrategyParams)
    (ind : IndicatorBundle) (acc : AccountState) (price : ℚ)
    (hb : ind.bands_HasSignal = true) (hr : ind.rsi_HasSignal = true)
    (hp : acc.price = some price) (hpos : 0 < price)
    (hexp : ¬ portfolio_exposure acc > p.max_portfolio_exposure) :
    Execute p ind acc = decisionActions p ind acc price := by
  unfold Execute
  rw [if_neg (by simp [hb, hr])]
  simp only [hp]
  rw [if_neg (not_le.mpr hpos), if_neg hexp]

/-- Exhaustive shape analysis of the entry/stop-loss/exit block: it is
empty, a single entry, a single Liquidate, or — exactly when the
stop-loss and the middle-band exit both hold for the current
position — two Liquidates. -/
theorem decisionActions_cases (p : StrategyParams) (ind : IndicatorBundle)
    (acc : AccountState) (price : ℚ) :
    decisionActions p ind acc price = [] ∨
    (∃ f, decisionActions p ind acc price = [TradeAction.SetHoldings f]) ∨
    decisionActions p ind acc price = [TradeAction.Liquidate] ∨
    (decisionActions p ind acc price =
        [TradeAction.Liquidate, TradeAction.Liquidate] ∧
      ((acc.holdings > 0 ∧
          price < acc.average_price * (1 - p.long_stop_loss) ∧
          price ≥ ind.bands_MiddleBand) ∨
       (acc.holdings < 0 ∧
          price > acc.average_price * (1 + p.short_stop_loss) ∧
          price ≤ ind.bands_MiddleBand))) := by
  rcases lt_trichotomy acc.holdings 0 with hneg | h0 | hpos
  · have k0 : ∀ q : Prop, ¬(acc.holdings = 0 ∧ q) :=
      fun _ hc => ne_of_lt hneg hc.1
    have kl : ∀ q : Prop, ¬(acc.holdings > 0 ∧ q) :=
      fun _ hc => lt_asymm hneg hc.1
    by_cases hss : price > acc.average_price * (1 + p.short_stop_loss) <;>
      by_cases hxs : price ≤ ind.bands_MiddleBand
    · refine Or.inr (Or.inr (Or.inr ⟨?_, Or.inr ⟨hneg, hss, hxs⟩⟩))
      unfold decisionActions
      rw [if_neg (k0 _), if_neg (k0 _), if_neg (kl _),
        if_pos ⟨hneg, hss⟩, if_neg (kl _), if_pos ⟨hneg, hxs⟩]
      rfl
    · refine Or.inr (Or.inr (Or.inl ?_))
      unfold decisionActions
      rw [if_neg (k0 _), if_neg (k0 _), if_neg (kl _),
        if_pos ⟨hneg, hss⟩, if_neg (kl _), if_neg (fun hc => hxs hc.2)]
      rfl
    · refine Or.inr (Or.inr (Or.inl ?_))
      unfold decisionActions
      rw [if_neg (k0 _), if_neg (k0 _), if_neg (kl _),
        if_neg (fun hc => hss hc.2), if_neg (kl _), if_pos ⟨hneg, hxs⟩]
      rfl
    · refine Or.inl ?_
      unfold decisionActions
      rw [if_neg (k0 _), if_neg (k0 _), if_neg (kl _),
        if_neg (fun hc => hss hc.2), if_neg (kl _),
        if_neg (fun hc => hxs hc.2)]
      rfl
  · have kl : ∀ q : Prop, ¬(acc.holdings > 0 ∧ q) :=
      fun _ hc => lt_irrefl (0 : ℚ) (h0 ▸ hc.1)
    have ks : ∀ q : Prop, ¬(acc.holdings < 0 ∧ q) :=
      fun _ hc => lt_irrefl (0 : ℚ) (h0 ▸ hc.1)
    have htail : decisionActions p ind acc price =
        (if acc.holdings = 0 ∧ price < ind.bands_LowerBand ∧
            ind.rsi_Value < 30 ∧ ind.trend.IsUptrend price = true then
          [TradeAction.SetHoldings p.long_trade_size]
        else if acc.holdings = 0 ∧ price > ind.bands_UpperBand ∧
            ind.rsi_Value > 70 ∧ ind.trend.IsDowntrend price = true then
          [TradeAction.SetHoldings (-p.short_trade_size)]
        else []) := by
      unfold decisionActions
      rw [if_neg (kl _), if_neg (ks _), if_neg (kl _), if_neg (ks _)]
      simp
    by_cases c1 : acc.holdings = 0 ∧ price < ind.bands_LowerBand ∧
        ind.rsi_Value < 30 ∧ ind.trend.IsUptrend price = true
    · exact Or.inr (Or.inl ⟨p.long_trade_size, by rw [htail, if_pos c1]⟩)
    · by_cases c2 : acc.holdings = 0 ∧ price > ind.bands_UpperBand ∧
          ind.rsi_Value > 70 ∧ ind.trend.IsDowntrend price = true
      · exact Or.inr (Or.inl
          ⟨-p.short_trade_size, by rw [htail, if_neg c1, if_pos c2]⟩)
      · exact Or.inl (by rw [htail, if_neg c1, if_neg c2])
  · have k0 : ∀ q : Prop, ¬(acc.holdings = 0 ∧ q) :=
      fun _ hc => ne_of_gt hpos hc.1
    have ks : ∀ q : Prop, ¬(acc.holdings < 0 ∧ q) :=
      fun _ hc => lt_asymm hpos hc.1
    by_cases hsl : price < acc.average_price * (1 - p.long_stop_loss) <;>
      by_cases hxl : price ≥ ind.bands_MiddleBand
    · refine Or.inr (Or.inr (Or.inr ⟨?_, Or.inl ⟨hpos, hsl, hxl⟩⟩))
      unfold decisionActions
      rw [if_neg (k0 _), if_neg (k0 _), if_pos ⟨hpos, hsl⟩,
        if_neg (ks _), if_pos ⟨hpos, hxl⟩, if_neg (ks _)]
      rfl
    · refine Or.inr (Or.inr (Or.inl ?_))
      unfold decisionActions
      rw [if_neg (k0 _), if_neg (k0 _), if_pos ⟨hpos, hsl⟩,
        if_neg (ks _), if_neg (fun hc => hxl hc.2), if_neg (ks _)]
      rfl
    · refine Or.inr (Or.inr (Or.inl ?_))
      unfold decisionActions
      rw [if_neg (k0 _), if_neg (k0 _), if_neg (fun hc => hsl hc.2),
        if_neg (ks _), if_pos ⟨hpos, hxl⟩, if_neg (ks _)]
      rfl
    · refine Or.inl ?_
      unfold decisionActions
      rw [if_neg (k0 _), if_neg (k0 _), if_neg (fun hc => hsl hc.2),
        if_neg (ks _), if_neg (fun hc => hxl hc.2), if_neg (ks _)]
      rfl

/-- Counterexample to claim C2 as stated: a long position entered at 100
with price 94 and middle band 90 satisfies both the stop-loss and the
middle-band exit conditions, and the engine emits two Liquidate calls in
one evaluation. -/
theorem c2_counterexample_double_liquidate :
    acc2.holdings > 0 ∧
    (94 : ℚ) < acc2.average_price * (1 - defaultParams.long_stop_loss) ∧
    (94 : ℚ) ≥ ind2.bands_MiddleBand ∧
    Execute defaultParams ind2 acc2 =
      [TradeAction.Liquidate, TradeAction.Liquidate] := by
  refine ⟨?_, ?_, ?_, ?_⟩
  · norm_num [acc2]
  · norm_num [acc2, defaultParams]
  · norm_num [ind2]
  · norm_num [Execute, decisionActions, portfolio_exposure, ind2, acc2,
      defaultParams, TrendFilter.IsUptrend, TrendFilter.IsDowntrend,
      SMAState.IsReady, SMAState.CurrentValue]

/-- Claim C2 (amended): each evaluation emits either nothing, a single
entry, a single Liquidate, or exactly two Liquidates — the last case
occurring precisely when both the stop-loss and the middle-band exit
conditions hold for the current position; an entry is never emitted
together with a Liquidate. -/
theorem c2_action_shapes (p : StrategyParams) (ind : IndicatorBundle)
    (acc : AccountState) :
    Execute p ind acc = [] ∨
    (∃ f, Execute p ind acc = [TradeAction.SetHoldings f]) ∨
    Execute p ind acc = [TradeAction.Liquidate] ∨
    (Execute p ind acc = [TradeAction.Liquidate, TradeAction.Liquidate] ∧
      ∃ price, acc.price = some price ∧
        ((acc.holdings > 0 ∧
            price < acc.average_price * (1 - p.long_stop_loss) ∧
            price ≥ ind.bands_MiddleBand) ∨
         (acc.holdings < 0 ∧
            price > acc.average_price * (1 + p.short_stop_loss) ∧
            price ≤ ind.bands_MiddleBand))) := by
  unfold Execute
  split
  · exact Or.inl rfl
  · split
    · exact Or.inl rfl
    · next x price heq =>
      split
      · exact Or.inl rfl
      · split
        · exact Or.inl rfl
        · rcases decisionActions_cases p ind acc price with h | h | h | ⟨h, hc⟩
          · exact Or.inl h
          · exact Or.inr (Or.inl h)
          · exact Or.inr (Or.inr (Or.inl h))
          · exact Or.inr (Or.inr (Or.inr ⟨h, price, heq, hc⟩))

/-- Counterexample to claim C3 as stated: with holding values 50 and
−100 out of a total of 100, the code's signed-sum exposure is −0.5 while
the spec's Σ|v|/total is 1.5; the gate lets the entry through even
though the absolute exposure exceeds the 0.80 maximum. -/
theorem c3_counterexample_signed_exposure :
    portfolio_exposure acc3 = -(1 / 2) ∧
    specAbsoluteExposure acc3 = 3 / 2 ∧
    portfolio_exposure acc3 ≠ specAbsoluteExposure acc3 ∧
    specAbsoluteExposure acc3 > defaultParams.max_portfolio_exposure ∧
    Execute defaultParams ind3 acc3 =
      [TradeAction.SetHoldings defaultParams.long_trade_size] := by
  refine ⟨?_, ?_, ?_, ?_, ?_⟩
  · norm_num [portfolio_exposure, acc3]
  · norm_num [specAbsoluteExposure, acc3]
  · norm_num [portfolio_exposure, specAbsoluteExposure, acc3]
  · norm_num [specAbsoluteExposure, acc3, defaultParams]
  · norm_num [Execute, decisionActions, portfolio_exposure, ind3, acc3,
      defaultParams, TrendFilter.IsUptrend, TrendFilter.IsDowntrend,
      SMAState.IsReady, SMAState.CurrentValue]

/-- Claim C3 (amended): the exposure used by the gate is the signed sum
of holding values over total value; it agrees with the spec's
Σ|holding value|/total exactly on portfolios with no negative holding
value. -/
theorem c3_exposure_signed_sum (acc : AccountState)
    (h : ∀ v ∈ acc.holdingsValues, 0 ≤ v) :
    portfolio_exposure acc = specAbsoluteExposure acc := by
  have key : ∀ l : List ℚ, (∀ v ∈ l, 0 ≤ v) →
      (l.map (fun v => |v|)).sum = l.sum := by
    intro l hl
    induction l with
    | nil => rfl
    | cons x xs ih =>
      simp only [List.map_cons, List.sum_cons]
      rw [abs_of_nonneg (hl x (by simp)),
        ih (fun v hv => hl v (by simp [hv]))]
  unfold portfolio_exposure specAbsoluteExposure
  rw [key _ h]

/-- Witness for amended C3 on an all-long portfolio. -/
theorem c3_exposure_signed_sum_witness :
    portfolio_exposure acc3w = specAbsoluteExposure acc3w :=
  c3_exposure_signed_sum acc3w (by norm_num [acc3w])

/-- Claim C4 (code bug): fed closes 100 then 110, the estimator's second
stored value is 0, not the spec's log-return log(110/100): the code
reads the previously stored *return* where it means the previous close,
so every stored return is zero.  Stated for any `log` with the two
properties of the natural logarithm the comparison needs. -/
theorem c4_update_stores_zero_not_log_return (log : ℚ → ℚ)
    (h1 : log 1 = 0) (h2 : log (11 / 10) ≠ 0) :
    ((hv4.Update log slice4a).Update log slice4b).returns.data = [0, 0] ∧
    specLogReturn log 100 110 = log (11 / 10) ∧
    specLogReturn log 100 110 ≠ 0 := by
  have hq : (110 : ℚ) / 110 = 1 := by norm_num
  have hq2 : (110 : ℚ) / 100 = 11 / 10 := by norm_num
  refine ⟨?_, ?_, ?_⟩
  · have step : ((hv4.Update log slice4a).Update log slice4b).returns.data
        = [log ((110 : ℚ) / 110), 0] := rfl
    rw [step, hq, h1]
  · unfold specLogReturn
    rw [hq2]
  · unfold specLogReturn
    rw [hq2]
    exact h2

/-- Witness for C4 with the concrete logarithm-like map x ↦ x − 1. -/
theorem c4_update_stores_zero_not_log_return_witness :
    (fun x : ℚ => x - 1) 1 = 0 ∧ (fun x : ℚ => x - 1) (11 / 10) ≠ 0 ∧
    ((hv4.Update (fun x : ℚ => x - 1) slice4a).Update
        (fun x : ℚ => x - 1) slice4b).returns.data = [0, 0] := by
  refine ⟨by norm_num, by norm_num, ?_⟩
  exact (c4_update_stores_zero_not_log_return (fun x : ℚ => x - 1)
    (by norm_num) (by norm_num)).1

/-- Claim C6 (confirmed): with both indicators ready, a positive price,
exposure within the limit, a flat position, price below the lower band,
oscillator below 30 and an uptrend, the engine emits exactly one
`SetHoldings` at the long entry size. -/
theorem c6_long_entry (p : StrategyParams) (ind : IndicatorBundle)
    (acc : AccountState) (price : ℚ)
    (hb : ind.bands_HasSignal = true) (hr : ind.rsi_HasSignal = true)
    (hp : acc.price = some price) (hpos : 0 < price)
    (hexp : ¬ portfolio_exposure acc > p.max_portfolio_exposure)
    (h0 : acc.holdings = 0) (hlow : price < ind.bands_LowerBand)
    (hrsi : ind.rsi_Value < 30) (hup : ind.trend.IsUptrend price = true) :
    Execute p ind acc = [TradeAction.SetHoldings p.long_trade_size] := by
  rw [Execute_eq_decisionActions p ind acc price hb hr hp hpos hexp]
  have kl : ∀ q : Prop, ¬(acc.holdings > 0 ∧ q) :=
    fun _ hc => lt_irrefl (0 : ℚ) (h0 ▸ hc.1)
  have ks : ∀ q : Prop, ¬(acc.holdings < 0 ∧ q) :=
    fun _ hc => lt_irrefl (0 : ℚ) (h0 ▸ hc.1)
  unfold decisionActions
  rw [if_pos ⟨h0, hlow, hrsi, hup⟩, if_neg (kl _), if_neg (ks _),
    if_neg (kl _), if_neg (ks _)]
  rfl

/-- Witness for C6: the spec's long-entry scenario (price 18, lower band
19, oscillator 25, uptrend) yields `SetHoldings 0.05`. -/
theorem c6_long_entry_witness :
    Execute defaultParams ind6 acc6 =
      [TradeAction.SetHoldings defaultParams.long_trade_size] :=
  c6_long_entry defaultParams ind6 acc6 18 rfl rfl rfl (by norm_num)
    (by norm_num [portfolio_exposure, acc6, defaultParams]) rfl
    (by norm_num [ind6]) (by norm_num [ind6])
    (by norm_num [ind6, TrendFilter.IsUptrend, SMAState.IsReady,
      SMAState.CurrentValue])

/-- Claim C7 (confirmed): a single evaluation never emits more than one
`SetHoldings` call, so EnterLong and EnterShort can never both be issued
for the instrument. -/
theorem c7_at_most_one_entry (p : StrategyParams) (ind : IndicatorBundle)
    (acc : AccountState) :
    (Execute p ind acc).countP TradeAction.isEntry ≤ 1 := by
  unfold Execute
  split
  · simp
  · split
    · simp
    · split
      · simp
      · split
        · simp
        · unfold decisionActions
          simp only [List.countP_append]
          split_ifs <;>
            simp [TradeAction.isEntry, List.countP_cons, List.countP_nil]

/-- Claim C8 (confirmed): a long position whose price is below the
stop-loss threshold always produces a Liquidate, and it is the first
action emitted — in particular it is emitted whether or not the price is
also at or above the middle band. -/
theorem c8_long_stop_loss_fires (p : StrategyParams) (ind : IndicatorBundle)
    (acc : AccountState) (price : ℚ)
    (hb : ind.bands_HasSignal = true) (hr : ind.rsi_HasSignal = true)
    (hp : acc.price = some price) (hpos : 0 < price)
    (hexp : ¬ portfolio_exposure acc > p.max_portfolio_exposure)
    (hlong : acc.holdings > 0)
    (hsl : price < acc.average_price * (1 - p.long_stop_loss)) :
    ∃ rest, Execute p ind acc = TradeAction.Liquidate :: rest := by
  rw [Execute_eq_decisionActions p ind acc price hb hr hp hpos hexp]
  have k0 : ∀ q : Prop, ¬(acc.holdings = 0 ∧ q) :=
    fun _ hc => ne_of_gt hlong hc.1
  have ks : ∀ q : Prop, ¬(acc.holdings < 0 ∧ q) :=
    fun _ hc => lt_asymm hlong hc.1
  refine ⟨(if acc.holdings > 0 ∧ price ≥ ind.bands_MiddleBand then
    [TradeAction.Liquidate] else []), ?_⟩
  unfold decisionActions
  rw [if_neg (k0 _), if_neg (k0 _), if_pos ⟨hlong, hsl⟩, if_neg (ks _),
    if_neg (ks _)]
  simp

/-- Witness for C8: the spec's precedence scenario — entry price 100,
stop-loss 5%, current price 94, middle band 90 — emits Liquidate first
(here followed by the middle-band exit's own Liquidate). -/
theorem c8_long_stop_loss_fires_witness :
    ∃ rest, Execute defaultParams ind8 acc8 = TradeAction.Liquidate :: rest :=
  c8_long_stop_loss_fires defaultParams ind8 acc8 94 rfl rfl rfl (by norm_num)
    (by norm_num [portfolio_exposure, acc8, defaultParams])
    (by norm_num [acc8]) (by norm_num [acc8, defaultParams])
